import Mathlib

/-!
Shallow embedding of the live capture subsystem of the InterviewBot client:
the audio recorder state machine (`client/src/components/audio-recorder.tsx`),
the per-question countdown (`client/src/hooks/useTimer.ts`), the timer-expiry
forced finalization sequence of the voice-interview page, and the fullscreen
compliance monitor (`client/src/lib/fullscreenMonitor.ts`).

Strings model JavaScript strings; `jsTrim` models `String.prototype.trim` and
`jsCollapseWS` models `.replace(/\s+/g, ' ')`.  Audio blobs are modelled as
byte lists (`List Nat`); a `Blob` built from a list of parts is the
concatenation of their bytes.  React state updates are modelled as sequential
mutation of one record, matching the single-threaded event-driven execution.
-/

namespace InterviewBot

/-- Whitespace test used by both `trim` and the `/\s+/` regex. -/
def isWS (c : Char) : Bool := c.isWhitespace

/-- Remove leading and trailing whitespace from a character list. -/
def trimChars (l : List Char) : List Char :=
  ((l.dropWhile isWS).reverse.dropWhile isWS).reverse

/-- Model of JavaScript `s.trim()`. -/
def jsTrim (s : String) : String := (trimChars s.toList).asString

/-- Replace every maximal run of whitespace by a single space.
The boolean argument records whether we are inside a whitespace run. -/
def collapseWSAux : Bool → List Char → List Char
  | _, [] => []
  | inRun, c :: rest =>
    if isWS c then
      if inRun then collapseWSAux true rest
      else ' ' :: collapseWSAux true rest
    else c :: collapseWSAux false rest

/-- Model of JavaScript `s.replace(/\s+/g, ' ')`. -/
def jsCollapseWS (s : String) : String := (collapseWSAux false s.toList).asString

/-- State of the `AudioRecorder` component
(`client/src/components/audio-recorder.tsx`).  Booleans mirror the React
state flags and the nullable refs (`mediaRecorderRef`, `currentStreamRef`);
`chunks` is `chunksRef.current`; `audioSegments`, `accumulatedTranscript` and
`currentSegmentTranscript` are the React states of the same names;
`segmentFinal` is the `segmentFinalTranscript` closure variable of
`startSpeechRecognition`; `finishScheduled` counts the `combineAllSegments`
calls scheduled by `finishRecording` (the `setTimeout(..., 500)`). -/
structure RecorderState where
  isRecording : Bool
  isPaused : Bool
  hasMediaRecorder : Bool
  hasStream : Bool
  timerActive : Bool
  recognitionActive : Bool
  chunks : List (List Nat)
  audioSegments : List (List Nat)
  accumulatedTranscript : String
  currentSegmentTranscript : String
  segmentFinal : String
  finishScheduled : Nat
  deriving Repr, DecidableEq

/-- The component's initial state. -/
def initState : RecorderState :=
  { isRecording := false
    isPaused := false
    hasMediaRecorder := false
    hasStream := false
    timerActive := false
    recognitionActive := false
    chunks := []
    audioSegments := []
    accumulatedTranscript := ""
    currentSegmentTranscript := ""
    segmentFinal := ""
    finishScheduled := 0 }

/-- `ondataavailable` handler: push the event data onto `chunksRef` only when
`event.data.size > 0`. -/
def onDataAvailable (s : RecorderState) (data : List Nat) : RecorderState :=
  if data.length > 0 then { s with chunks := s.chunks ++ [data] } else s

/-- `onstop` handler of the media recorder: build
`new Blob(chunksRef.current)` — whose bytes are the concatenation of the
buffered chunks — and append it to `audioSegments`. -/
def mediaStopAppend (s : RecorderState) : RecorderState :=
  { s with audioSegments := s.audioSegments ++ [s.chunks.flatten] }

/-- The transcript-commit step inside `pauseRecording`: when the current
segment transcript is nonempty after trimming, clean it
(`trim().replace(/\s+/g, ' ')`), append it to the accumulated transcript
(space-joined when the accumulator is nonempty, i.e. truthy), and clear the
current segment transcript. -/
def commitTranscript (s : RecorderState) : RecorderState :=
  if jsTrim s.currentSegmentTranscript ≠ "" then
    let clean := jsCollapseWS (jsTrim s.currentSegmentTranscript)
    { s with
      accumulatedTranscript :=
        if s.accumulatedTranscript = "" then clean
        else s.accumulatedTranscript ++ " " ++ clean
      currentSegmentTranscript := "" }
  else s

/-- `pauseRecording`: guarded by `mediaRecorderRef.current && isRecording`.
Stops the recorder (which fires `onstop`, appending the segment), flips the
flags, stops speech recognition, commits the current segment transcript, and
clears the recording interval. -/
def pauseRecording (s : RecorderState) : RecorderState :=
  if s.hasMediaRecorder && s.isRecording then
    let s1 := mediaStopAppend s
    let s2 := { s1 with
      isRecording := false
      isPaused := true
      recognitionActive := false }
    let s3 := commitTranscript s2
    { s3 with timerActive := false }
  else s

/-- `finishRecording`: guarded by
`mediaRecorderRef.current && (isRecording || isPaused)`.  If recording, stops
the recorder (appending the last segment); flips both flags off, stops
recognition and the interval, releases the stream, and schedules
`combineAllSegments` once (the 500 ms timeout). -/
def finishRecording (s : RecorderState) : RecorderState :=
  if s.hasMediaRecorder && (s.isRecording || s.isPaused) then
    let s1 := if s.isRecording then mediaStopAppend s else s
    { s1 with
      isRecording := false
      isPaused := false
      recognitionActive := false
      timerActive := false
      hasStream := false
      finishScheduled := s.finishScheduled + 1 }
  else s

/-- `restartRecording` ("Start Over"): stop any active recording, then clear
all accumulated data (segments, transcripts, chunks). -/
def restartRecording (s : RecorderState) : RecorderState :=
  let s1 :=
    if s.hasMediaRecorder && (s.isRecording || s.isPaused) then
      let sa := if s.isRecording then mediaStopAppend s else s
      { sa with
        isRecording := false
        isPaused := false
        recognitionActive := false
        timerActive := false
        hasStream := false }
    else s
  { s1 with
    accumulatedTranscript := ""
    currentSegmentTranscript := ""
    audioSegments := []
    chunks := [] }

/-- `startRecording` / `resumeRecording`: when paused with a live stream,
resume on the warm stream; otherwise acquire a fresh stream
(`success` models whether `getUserMedia` / the recorder constructor
succeeds).  Both paths create a new recorder, reset `chunksRef`, set the
flags, restart speech recognition with a fresh (empty) closure-local final
buffer, and start the interval. -/
def userStart (s : RecorderState) (success : Bool) : RecorderState :=
  if s.isPaused && s.hasStream then
    { s with
      hasMediaRecorder := true
      chunks := []
      isRecording := true
      isPaused := false
      recognitionActive := true
      segmentFinal := ""
      timerActive := true }
  else
    let s0 := if s.isPaused then { s with isPaused := false } else s
    if success then
      { s0 with
        hasStream := true
        hasMediaRecorder := true
        chunks := []
        isRecording := true
        isPaused := false
        recognitionActive := true
        segmentFinal := ""
        timerActive := true }
    else s0

/-- Concatenation of the final-result texts of one recognition event, each
followed by a space (`newFinalText += transcript + ' '`). -/
def finalsText (rs : List (String × Bool)) : String :=
  rs.foldl (fun acc r => if r.2 then acc ++ r.1 ++ " " else acc) ""

/-- Concatenation of the interim-result texts of one recognition event
(`interimTranscript += transcript`). -/
def interimText (rs : List (String × Bool)) : String :=
  rs.foldl (fun acc r => if r.2 then acc else acc ++ r.1) ""

/-- The `onresult` handler of `startSpeechRecognition`: append new final text
to the closure-local segment buffer (when nonempty after trimming), then
display the buffer followed by the interim text, trimmed, as the current
segment transcript. -/
def onResult (s : RecorderState) (rs : List (String × Bool)) : RecorderState :=
  if s.recognitionActive then
    let nf := finalsText rs
    let sf := if jsTrim nf ≠ "" then s.segmentFinal ++ nf else s.segmentFinal
    { s with
      segmentFinal := sf
      currentSegmentTranscript := jsTrim (sf ++ interimText rs) }
  else s

/-- The outcome reported by one run of `combineAllSegments`: either the
completion callback `onRecordingComplete(blob, transcript)`, or the
"No Speech Detected" retry path (the `EmptyAnswer` outcome of the spec). -/
inductive Outcome where
  | complete (blob : List Nat) (transcript : String)
  | emptyAnswer
  deriving Repr, DecidableEq

/-- Bytes of `new Blob(audioSegments)`: the segments concatenated in order. -/
def combinedBlob (s : RecorderState) : List Nat := s.audioSegments.flatten

/-- The cleaned final transcript computed by `combineAllSegments`: the
accumulated transcript, space-joined with the cleaned current segment
transcript when the latter is nonempty after trimming, then normalized
(`replace(/\s+/g, ' ')`) and trimmed. -/
def finalCombinedTranscript (s : RecorderState) : String :=
  let ft :=
    if jsTrim s.currentSegmentTranscript ≠ "" then
      let c := jsCollapseWS (jsTrim s.currentSegmentTranscript)
      if s.accumulatedTranscript = "" then c
      else s.accumulatedTranscript ++ " " ++ c
    else s.accumulatedTranscript
  jsTrim (jsCollapseWS ft)

/-- `combineAllSegments`: only when `audioSegments.length > 0` does anything
happen; then with a nonempty cleaned transcript the completion callback is
invoked, else the "No Speech Detected" toast fires and `restartRecording`
is called.  With no segments, no outcome is reported at all. -/
def combineAllSegments (s : RecorderState) : RecorderState × Option Outcome :=
  if s.audioSegments.length > 0 then
    let cleaned := finalCombinedTranscript s
    if cleaned ≠ "" then
      (s, some (Outcome.complete (combinedBlob s) cleaned))
    else
      (restartRecording s, some Outcome.emptyAnswer)
  else (s, none)

/-- Scenario 1 of the `useTimer` expiry callback in the voice-interview page:
while still recording, call `pauseRecording()`, wait 2 s, and — if the
recorder reports paused — call `finishRecording()`.  The second component
counts how many times `finishRecording` is invoked by the sequence. -/
def forcedFinishSeq (s : RecorderState) : RecorderState × Nat :=
  let s1 := pauseRecording s
  if s1.isPaused then (finishRecording s1, 1) else (s1, 0)

/-- State of the `useTimer` hook (`client/src/hooks/useTimer.ts`).
`timeLeft` is an `Int` (a JavaScript number); `fired` counts invocations of
the `onTimeUp` callback. -/
structure TimerState where
  timeLeft : Int
  isRunning : Bool
  fired : Nat
  deriving Repr, DecidableEq

/-- One interval tick of the `useTimer` countdown effect.  The interval only
exists while `isRunning && timeLeft > 0` (the effect's guard); the tick body
sets `isRunning` to false, fires `onTimeUp` and returns 0 when `prev <= 1`,
and otherwise returns `prev - 1`. -/
def timerTick (s : TimerState) : TimerState :=
  if s.isRunning && s.timeLeft > 0 then
    if s.timeLeft ≤ 1 then
      { timeLeft := 0, isRunning := false, fired := s.fired + 1 }
    else { s with timeLeft := s.timeLeft - 1 }
  else s

/-- Configuration of the `FullscreenMonitor`
(`client/src/lib/fullscreenMonitor.ts`). -/
structure MonitorConfig where
  maxExits : Nat
  deriving Repr, DecidableEq

/-- State of the `FullscreenMonitor`.  `warningArmed` is whether
`warningTimer` holds a live timeout; `terminatedCount`, `timeoutCount` and
`warningsSent` record invocations of the `onSessionTerminated`, `onTimeout`
and `onWarning` callbacks (the exits-remaining argument for the latter). -/
structure MonitorState where
  exitCount : Nat
  warningArmed : Bool
  isActive : Bool
  hasRequestedFullscreen : Bool
  terminatedCount : Nat
  timeoutCount : Nat
  warningsSent : List Nat
  deriving Repr, DecidableEq

/-- `stop()`: when active, deactivate and clear the warning timer
(idempotent — a second call is a no-op). -/
def stopMonitor (s : MonitorState) : MonitorState :=
  if s.isActive then { s with isActive := false, warningArmed := false } else s

/-- `terminateSession()`: invoke `onSessionTerminated` and then `stop()`. -/
def terminateSession (s : MonitorState) : MonitorState :=
  stopMonitor { s with terminatedCount := s.terminatedCount + 1 }

/-- `handleFullscreenChange`, driven by the platform `fullscreenchange`
event.  `fsElement` is whether `document.fullscreenElement` is non-null.
An exit increments `exitCount` and either terminates (at `maxExits`) or
warns and (re)starts the grace-period timer; a return to fullscreen clears
the grace-period timer and nothing else. -/
def handleFullscreenChange (cfg : MonitorConfig) (s : MonitorState)
    (fsElement : Bool) : MonitorState :=
  if !s.isActive then s
  else if !fsElement && s.hasRequestedFullscreen then
    let ec := s.exitCount + 1
    if ec ≥ cfg.maxExits then
      terminateSession { s with exitCount := ec }
    else
      { s with
        exitCount := ec
        warningsSent := s.warningsSent ++ [cfg.maxExits - ec]
        warningArmed := true }
  else if fsElement then { s with warningArmed := false }
  else s

/-- The grace-period timeout firing: only possible while the timer is armed
(`clearTimeout` cancels it otherwise); invokes `onTimeout` and then
`terminateSession()`. -/
def warningTimeoutFires (s : MonitorState) : MonitorState :=
  if s.warningArmed then
    terminateSession { s with timeoutCount := s.timeoutCount + 1 }
  else s

/-- States of the audio recorder reachable from the initial component state
under its event handlers and control surface. -/
inductive Reachable : RecorderState → Prop where
  | init : Reachable initState
  | start (s : RecorderState) (b : Bool) :
      Reachable s → Reachable (userStart s b)
  | pause (s : RecorderState) : Reachable s → Reachable (pauseRecording s)
  | finish (s : RecorderState) : Reachable s → Reachable (finishRecording s)
  | restart (s : RecorderState) : Reachable s → Reachable (restartRecording s)
  | combine (s : RecorderState) :
      Reachable s → Reachable (combineAllSegments s).1
  | result (s : RecorderState) (rs : List (String × Bool)) :
      Reachable s → Reachable (onResult s rs)
  | dataAvail (s : RecorderState) (d : List Nat) :
      Reachable s → Reachable (onDataAvailable s d)

/-! Helper lemmas. -/

theorem empty_string_append (s : String) : "" ++ s = s := by
  cases s
  rfl

theorem jsTrim_empty : jsTrim "" = "" := rfl

theorem flatten_filter_nonempty {α : Type} (l : List (List α)) :
    (l.filter (fun x => !x.isEmpty)).flatten = l.flatten := by
  induction l with
  | nil => rfl
  | cons x xs ih =>
    by_cases hx : x.isEmpty
    · have hx' : x = [] := List.isEmpty_iff.mp hx
      simp [List.filter_cons, hx, ih, hx']
    · simp [List.filter_cons, hx, ih]

/-! ### Claims -/

/-- C9: `pauseRecording` in any state that is not actively recording is a
no-op: the state — segments, transcripts, timer, phase flags — is unchanged,
because the body is guarded by `mediaRecorderRef.current && isRecording`. -/
theorem pause_noop_outside_recording (s : RecorderState)
    (h : s.isRecording = false) : pauseRecording s = s := by
  unfold pauseRecording
  rw [h]
  simp

/-- Witness for C9 at the initial (idle) state. -/
theorem pause_noop_outside_recording_witness :
    initState.isRecording = false ∧ pauseRecording initState = initState :=
  ⟨rfl, pause_noop_outside_recording initState rfl⟩

/-- C10: when `combineAllSegments` runs with an empty segment list, no
outcome at all is reported — neither the completion callback nor the
no-speech (`EmptyAnswer`) path — and the state is left unchanged, whatever
committed transcript text exists. -/
theorem no_outcome_without_segments (s : RecorderState)
    (h : s.audioSegments = []) :
    (combineAllSegments s).2 = none ∧ (combineAllSegments s).1 = s := by
  unfold combineAllSegments
  rw [h]
  simp

/-- Witness for C10 at a state with committed transcript text but no
segments. -/
theorem no_outcome_without_segments_witness :
    ({ initState with accumulatedTranscript := "hello" } :
        RecorderState).audioSegments = [] ∧
    (combineAllSegments { initState with accumulatedTranscript := "hello" }).2
        = none ∧
    (combineAllSegments { initState with accumulatedTranscript := "hello" }).1
        = { initState with accumulatedTranscript := "hello" } :=
  ⟨rfl, no_outcome_without_segments _ rfl⟩

/-- C2: from any state where a `finish()` is effectual (recorder present and
recording or paused), a second `finishRecording` call arriving while the
first finalization is still in flight is a no-op (the state is unchanged, so
the same single pending finalization remains), and the first call schedules
exactly one finalization. -/
theorem finish_twice_single_outcome (s : RecorderState)
    (hm : s.hasMediaRecorder = true)
    (ha : s.isRecording = true ∨ s.isPaused = true) :
    finishRecording (finishRecording s) = finishRecording s ∧
    (finishRecording s).finishScheduled = s.finishScheduled + 1 := by
  have hg : (s.hasMediaRecorder && (s.isRecording || s.isPaused)) = true := by
    rcases ha with h | h <;> simp [hm, h]
  constructor
  · conv_lhs => rw [finishRecording, finishRecording, if_pos hg]
    conv_rhs => rw [finishRecording, if_pos hg]
    cases hrec : s.isRecording <;> simp [finishRecording, mediaStopAppend]
  · rw [finishRecording, if_pos hg]

/-- Witness for C2 at a freshly started recording state. -/
theorem finish_twice_single_outcome_witness :
    (userStart initState true).hasMediaRecorder = true ∧
    ((userStart initState true).isRecording = true ∨
      (userStart initState true).isPaused = true) ∧
    (finishRecording (finishRecording (userStart initState true)) =
      finishRecording (userStart initState true) ∧
    (finishRecording (userStart initState true)).finishScheduled =
      (userStart initState true).finishScheduled + 1) :=
  ⟨rfl, Or.inl rfl, finish_twice_single_outcome _ rfl (Or.inl rfl)⟩

/-- C1: when the deadline fires while the recorder is recording, the forced
sequence of the expiry callback (pause, bounded wait, then finish if paused)
invokes `finishRecording` exactly once — never zero and never two — and that
single call schedules exactly one finalization. -/
theorem deadline_forced_sequence_one_finish (s : RecorderState)
    (hm : s.hasMediaRecorder = true) (hr : s.isRecording = true) :
    (forcedFinishSeq s).2 = 1 ∧
    (forcedFinishSeq s).1.finishScheduled = s.finishScheduled + 1 := by
  have hg : (s.hasMediaRecorder && s.isRecording) = true := by simp [hm, hr]
  have hp : pauseRecording s =
      { commitTranscript
          { mediaStopAppend s with
            isRecording := false, isPaused := true, recognitionActive := false }
        with timerActive := false } := by
    rw [pauseRecording, if_pos hg]
  unfold forcedFinishSeq
  rw [hp]
  unfold commitTranscript mediaStopAppend
  split_ifs <;> simp [finishRecording, mediaStopAppend, hm]

/-- Witness for C1 at a freshly started recording state. -/
theorem deadline_forced_sequence_one_finish_witness :
    (userStart initState true).hasMediaRecorder = true ∧
    (userStart initState true).isRecording = true ∧
    ((forcedFinishSeq (userStart initState true)).2 = 1 ∧
      (forcedFinishSeq (userStart initState true)).1.finishScheduled =
        (userStart initState true).finishScheduled + 1) :=
  ⟨rfl, rfl, deadline_forced_sequence_one_finish _ rfl rfl⟩

/-- Characterization of an effectual `pauseRecording` whose cycle text is
nonempty after trimming. -/
theorem pauseRecording_eq (s : RecorderState)
    (hg : (s.hasMediaRecorder && s.isRecording) = true)
    (hne : jsTrim s.currentSegmentTranscript ≠ "") :
    pauseRecording s =
      { s with
        isRecording := false
        isPaused := true
        recognitionActive := false
        timerActive := false
        audioSegments := s.audioSegments ++ [s.chunks.flatten]
        accumulatedTranscript :=
          if s.accumulatedTranscript = ""
            then jsCollapseWS (jsTrim s.currentSegmentTranscript)
            else s.accumulatedTranscript ++ " " ++
              jsCollapseWS (jsTrim s.currentSegmentTranscript)
        currentSegmentTranscript := "" } := by
  rw [pauseRecording, if_pos hg]
  simp [commitTranscript, mediaStopAppend, hne]

/-- C3: a pause of a recording cycle whose cycle-local buffered text is
nonempty (after trimming) commits exactly the previous committed transcript,
space-joined with the cycle text normalized (whitespace runs collapsed) and
trimmed; when the previous committed transcript is nonempty the two are
joined by exactly one space, never concatenated bare; and the current-cycle
(pending) text is cleared. -/
theorem pause_commits_space_joined (s : RecorderState)
    (hm : s.hasMediaRecorder = true) (hr : s.isRecording = true)
    (hne : jsTrim s.currentSegmentTranscript ≠ "") :
    (pauseRecording s).accumulatedTranscript =
      (if s.accumulatedTranscript = ""
        then jsCollapseWS (jsTrim s.currentSegmentTranscript)
        else s.accumulatedTranscript ++ " " ++
          jsCollapseWS (jsTrim s.currentSegmentTranscript)) ∧
    (pauseRecording s).currentSegmentTranscript = "" ∧
    (s.accumulatedTranscript ≠ "" →
      (pauseRecording s).accumulatedTranscript =
        s.accumulatedTranscript ++ " " ++
          jsCollapseWS (jsTrim s.currentSegmentTranscript)) := by
  have hg : (s.hasMediaRecorder && s.isRecording) = true := by simp [hm, hr]
  rw [pauseRecording_eq s hg hne]
  refine ⟨rfl, rfl, fun hacc => ?_⟩
  simp [hacc]

/-- Witness for C3: a recording state with committed text `"a b"` and cycle
text `" c  d "` commits `"a b c d"`. -/
theorem pause_commits_space_joined_witness :
    ({ userStart initState true with
        accumulatedTranscript := "a b"
        currentSegmentTranscript := " c  d " } :
      RecorderState).hasMediaRecorder = true ∧
    ({ userStart initState true with
        accumulatedTranscript := "a b"
        currentSegmentTranscript := " c  d " } :
      RecorderState).isRecording = true ∧
    jsTrim ({ userStart initState true with
        accumulatedTranscript := "a b"
        currentSegmentTranscript := " c  d " } :
      RecorderState).currentSegmentTranscript ≠ "" ∧
    (pauseRecording { userStart initState true with
        accumulatedTranscript := "a b"
        currentSegmentTranscript := " c  d " }).accumulatedTranscript =
      "a b" ++ " " ++ "c d" :=
  ⟨rfl, rfl, by decide,
    ((pause_commits_space_joined
        { userStart initState true with
          accumulatedTranscript := "a b"
          currentSegmentTranscript := " c  d " } rfl rfl (by decide)).2.2
      (by decide)).trans (by decide)⟩

/-- C6: stopping a cycle with zero buffered chunks still appends a segment —
the empty one — to the segment list (no failure path exists), and the bytes
of the composite artifact built at finalize time equal those obtained with
every zero-length segment excluded from the concatenation. -/
theorem empty_segment_tolerated_and_excluded (s : RecorderState)
    (h : s.chunks = []) :
    (mediaStopAppend s).audioSegments = s.audioSegments ++ [[]] ∧
    (∀ t : RecorderState,
      combinedBlob t = (t.audioSegments.filter (fun seg => !seg.isEmpty)).flatten) := by
  constructor
  · unfold mediaStopAppend
    rw [h]
    rfl
  · intro t
    rw [combinedBlob, flatten_filter_nonempty]

/-- Witness for C6: stopping with no buffered data after a fresh start
appends `[]`, and a composite built from segments `[[1], [], [2]]` equals
the one from `[[1], [2]]`. -/
theorem empty_segment_tolerated_and_excluded_witness :
    (userStart initState true).chunks = [] ∧
    (mediaStopAppend (userStart initState true)).audioSegments =
      (userStart initState true).audioSegments ++ [[]] ∧
    combinedBlob { initState with audioSegments := [[1], [], [2]] } =
      (([[1], [], [2]] : List (List Nat)).filter (fun seg => !seg.isEmpty)).flatten :=
  ⟨rfl, (empty_segment_tolerated_and_excluded (userStart initState true) rfl).1,
    (empty_segment_tolerated_and_excluded (userStart initState true) rfl).2
      { initState with audioSegments := [[1], [], [2]] }⟩

/-- Characterization of `n` ticks of the countdown from an armed state with
`t` seconds left: before `t` ticks the timer is still armed at `t - n`, and
from the `t`-th tick on it is disarmed at 0 with the callback fired exactly
once. -/
theorem timerTick_running (t : Int) (f : Nat) (h : 0 < t) :
    timerTick ⟨t, true, f⟩ =
      if t ≤ 1 then ⟨0, false, f + 1⟩ else ⟨t - 1, true, f⟩ := by
  unfold timerTick
  simp [h]

theorem timerTick_stopped (t : Int) (f : Nat) :
    timerTick ⟨t, false, f⟩ = ⟨t, false, f⟩ := by
  unfold timerTick
  simp

theorem timerTick_iterate (t : Int) (f : Nat) (n : Nat) (ht : 0 < t) :
    timerTick^[n] ⟨t, true, f⟩ =
      if (n : Int) < t then ⟨t - n, true, f⟩ else ⟨0, false, f + 1⟩ := by
  induction n with
  | zero => simp [ht]
  | succ n ih =>
    rw [Function.iterate_succ_apply', ih]
    by_cases h : (n : Int) < t
    · rw [if_pos h, timerTick_running _ _ (by omega)]
      by_cases h2 : ((n : Int) + 1) < t
      · rw [if_neg (by omega), if_pos (by push_cast; omega)]
        congr 1
        push_cast
        omega
      · rw [if_pos (by omega), if_neg (by push_cast; omega)]
    · rw [if_neg h, timerTick_stopped, if_neg (by push_cast; omega)]

/-- C7: while armed with positive time left, each tick decreases
`timeLeft` by exactly one and it never goes below 0; the tick that reaches 0
disarms the timer and fires the expiry callback; across any number of ticks
the callback fires at most once, and once the countdown is over (`n` ticks
with `timeLeft ≤ n`) it has fired exactly once and the timer stays
disarmed. -/
theorem countdown_tick_fires_once (s : TimerState)
    (hrun : s.isRunning = true) (hpos : 0 < s.timeLeft) :
    (timerTick s).timeLeft = s.timeLeft - 1 ∧
    0 ≤ (timerTick s).timeLeft ∧
    (s.timeLeft = 1 →
      (timerTick s).isRunning = false ∧ (timerTick s).fired = s.fired + 1) ∧
    (1 < s.timeLeft →
      (timerTick s).isRunning = true ∧ (timerTick s).fired = s.fired) ∧
    (∀ n : Nat, (timerTick^[n] s).fired ≤ s.fired + 1) ∧
    (∀ n : Nat, s.timeLeft ≤ (n : Int) →
      (timerTick^[n] s).fired = s.fired + 1 ∧
      (timerTick^[n] s).isRunning = false) := by
  obtain ⟨t, run, f⟩ := s
  dsimp only at hrun hpos ⊢
  subst hrun
  rw [timerTick_running t f hpos]
  refine ⟨?_, ?_, ?_, ?_, ?_, ?_⟩
  · split_ifs with h1
    · simp
      omega
    · rfl
  · split_ifs with h1
    · simp
    · simp
      omega
  · intro h1
    rw [if_pos (by omega)]
    exact ⟨rfl, rfl⟩
  · intro h1
    rw [if_neg (by omega)]
    exact ⟨rfl, rfl⟩
  · intro n
    rw [timerTick_iterate t f n hpos]
    split_ifs <;> simp
  · intro n hn
    rw [timerTick_iterate t f n hpos, if_neg (by omega)]
    exact ⟨rfl, rfl⟩

/-- Witness for C7 at an armed countdown with 2 seconds left. -/
theorem countdown_tick_fires_once_witness :
    (⟨2, true, 0⟩ : TimerState).isRunning = true ∧
    (0 : Int) < (⟨2, true, 0⟩ : TimerState).timeLeft ∧
    ((timerTick ⟨2, true, 0⟩).timeLeft = (2 : Int) - 1 ∧
    0 ≤ (timerTick ⟨2, true, 0⟩).timeLeft ∧
    ((⟨2, true, 0⟩ : TimerState).timeLeft = 1 →
      (timerTick ⟨2, true, 0⟩).isRunning = false ∧
      (timerTick ⟨2, true, 0⟩).fired = 0 + 1) ∧
    (1 < (⟨2, true, 0⟩ : TimerState).timeLeft →
      (timerTick ⟨2, true, 0⟩).isRunning = true ∧
      (timerTick ⟨2, true, 0⟩).fired = 0) ∧
    (∀ n : Nat, (timerTick^[n] ⟨2, true, 0⟩).fired ≤ 0 + 1) ∧
    (∀ n : Nat, (⟨2, true, 0⟩ : TimerState).timeLeft ≤ (n : Int) →
      (timerTick^[n] ⟨2, true, 0⟩).fired = 0 + 1 ∧
      (timerTick^[n] ⟨2, true, 0⟩).isRunning = false)) :=
  ⟨rfl, by decide, countdown_tick_fires_once ⟨2, true, 0⟩ rfl (by decide)⟩

/-- C8: for an active monitor after fullscreen was requested — every exit
increments `exitCount`; when the incremented count reaches `maxExits` the
session is terminated immediately (termination callback fired, monitoring
stopped); below `maxExits` no termination happens, a warning with the
exits-remaining count is emitted and the grace timer is armed; a return to
fullscreen cancels only the grace timer (the rest of the state — in
particular `exitCount` and the termination status — is untouched); and the
grace timer elapsing while still outside fullscreen terminates the session
exactly as reaching `maxExits` does. -/
theorem fullscreen_exit_policy (cfg : MonitorConfig) (s : MonitorState)
    (hact : s.isActive = true) (hreq : s.hasRequestedFullscreen = true) :
    (handleFullscreenChange cfg s false).exitCount = s.exitCount + 1 ∧
    (cfg.maxExits ≤ s.exitCount + 1 →
      (handleFullscreenChange cfg s false).terminatedCount =
        s.terminatedCount + 1 ∧
      (handleFullscreenChange cfg s false).isActive = false) ∧
    (s.exitCount + 1 < cfg.maxExits →
      (handleFullscreenChange cfg s false).terminatedCount =
        s.terminatedCount ∧
      (handleFullscreenChange cfg s false).warningArmed = true ∧
      (handleFullscreenChange cfg s false).warningsSent =
        s.warningsSent ++ [cfg.maxExits - (s.exitCount + 1)]) ∧
    handleFullscreenChange cfg s true = { s with warningArmed := false } ∧
    (s.warningArmed = true →
      (warningTimeoutFires s).terminatedCount = s.terminatedCount + 1 ∧
      (warningTimeoutFires s).isActive = false) := by
  refine ⟨?_, fun hmax => ?_, fun hlt => ?_, ?_, fun harm => ?_⟩
  · unfold handleFullscreenChange terminateSession stopMonitor
    simp [hact, hreq]
    split_ifs <;> rfl
  · unfold handleFullscreenChange terminateSession stopMonitor
    simp [hact, hreq, hmax]
  · unfold handleFullscreenChange
    simp [hact, hreq, Nat.not_le.mpr hlt]
  · unfold handleFullscreenChange
    simp [hact]
  · unfold warningTimeoutFires terminateSession stopMonitor
    simp [harm, hact]

/-- Witness for C8 at an active monitor (`maxExits = 3`) with one prior exit
and an armed grace timer. -/
theorem fullscreen_exit_policy_witness :
    (⟨1, true, true, true, 0, 0, []⟩ : MonitorState).isActive = true ∧
    (⟨1, true, true, true, 0, 0, []⟩ :
      MonitorState).hasRequestedFullscreen = true ∧
    ((handleFullscreenChange ⟨3⟩ ⟨1, true, true, true, 0, 0, []⟩
        false).exitCount = 1 + 1 ∧
    ((3 : Nat) ≤ 1 + 1 →
      (handleFullscreenChange ⟨3⟩ ⟨1, true, true, true, 0, 0, []⟩
          false).terminatedCount = 0 + 1 ∧
      (handleFullscreenChange ⟨3⟩ ⟨1, true, true, true, 0, 0, []⟩
          false).isActive = false) ∧
    (1 + 1 < 3 →
      (handleFullscreenChange ⟨3⟩ ⟨1, true, true, true, 0, 0, []⟩
          false).terminatedCount = 0 ∧
      (handleFullscreenChange ⟨3⟩ ⟨1, true, true, true, 0, 0, []⟩
          false).warningArmed = true ∧
      (handleFullscreenChange ⟨3⟩ ⟨1, true, true, true, 0, 0, []⟩
          false).warningsSent = [] ++ [3 - (1 + 1)]) ∧
    handleFullscreenChange ⟨3⟩ ⟨1, true, true, true, 0, 0, []⟩ true =
      { (⟨1, true, true, true, 0, 0, []⟩ : MonitorState) with
        warningArmed := false } ∧
    ((⟨1, true, true, true, 0, 0, []⟩ : MonitorState).warningArmed = true →
      (warningTimeoutFires ⟨1, true, true, true, 0, 0, []⟩).terminatedCount =
        0 + 1 ∧
      (warningTimeoutFires ⟨1, true, true, true, 0, 0, []⟩).isActive =
        false)) :=
  ⟨rfl, rfl, fullscreen_exit_policy ⟨3⟩ ⟨1, true, true, true, 0, 0, []⟩ rfl rfl⟩

/-- C4 counterexample: in a fresh recording cycle a single recognition event
carrying only interim (non-final) text `"hello"` is in flight; the claim
says a pause must discard it and leave the committed transcript unchanged
(empty), but the code commits `"hello"`: the `onresult` handler stores
`(segmentFinalTranscript + interimTranscript).trim()` into the current
segment transcript and `pauseRecording` merges that whole string into the
accumulated transcript. -/
theorem pause_merges_interim_cex :
    (userStart initState true).accumulatedTranscript = "" ∧
    (userStart initState true).segmentFinal = "" ∧
    (pauseRecording (onResult (userStart initState true)
        [("hello", false)])).accumulatedTranscript = "hello" := by
  refine ⟨rfl, rfl, by decide⟩

/-- C4 (amended): when a recording cycle ends at a pause boundary with
interim text `i` in flight (and no final text buffered for the cycle), the
interim text is not discarded: it is merged into the committed transcript —
normalized and space-joined exactly like final text — because `onresult`
folds interim text into the current segment transcript that
`pauseRecording` commits. -/
theorem pause_merges_interim (s : RecorderState)
    (hact : s.recognitionActive = true) (hm : s.hasMediaRecorder = true)
    (hr : s.isRecording = true) (hsf : s.segmentFinal = "")
    (i : String) (hi : jsTrim i = i) (hne : i ≠ "") :
    (pauseRecording (onResult s [(i, false)])).accumulatedTranscript =
      (if s.accumulatedTranscript = "" then jsCollapseWS i
        else s.accumulatedTranscript ++ " " ++ jsCollapseWS i) := by
  have honr : onResult s [(i, false)] =
      { s with segmentFinal := "", currentSegmentTranscript := i } := by
    unfold onResult finalsText interimText
    simp [hact, hsf, jsTrim_empty, empty_string_append, hi]
  rw [honr]
  rw [pauseRecording_eq _ (by simp [hm, hr]) (by simpa [hi] using hne)]
  simp [hi]

/-- Witness for the amended C4 at a fresh cycle with prior committed text
`"prior"` and interim text `"hello"` in flight. -/
theorem pause_merges_interim_witness :
    ({ userStart initState true with accumulatedTranscript := "prior" } :
      RecorderState).recognitionActive = true ∧
    ({ userStart initState true with accumulatedTranscript := "prior" } :
      RecorderState).segmentFinal = "" ∧
    jsTrim "hello" = "hello" ∧
    ("hello" : String) ≠ "" ∧
    (pauseRecording (onResult
        { userStart initState true with accumulatedTranscript := "prior" }
        [("hello", false)])).accumulatedTranscript =
      (if ("prior" : String) = "" then jsCollapseWS "hello"
        else "prior" ++ " " ++ jsCollapseWS "hello") :=
  ⟨rfl, rfl, by decide, by decide,
    pause_merges_interim
      { userStart initState true with accumulatedTranscript := "prior" }
      rfl rfl rfl rfl "hello" (by decide) (by decide)⟩

theorem userStart_isPaused (s : RecorderState) (b : Bool) :
    (userStart s b).isPaused = false := by
  unfold userStart
  dsimp only
  split_ifs <;> first | rfl | simp_all

theorem pausedInv_restart (s : RecorderState)
    (ih : s.isPaused = true → s.audioSegments ≠ [] ∧ s.hasMediaRecorder = true) :
    (restartRecording s).isPaused = true →
      (restartRecording s).audioSegments ≠ [] ∧
      (restartRecording s).hasMediaRecorder = true := by
  intro hp
  exfalso
  unfold restartRecording at hp
  dsimp only at hp
  by_cases hg : (s.hasMediaRecorder && (s.isRecording || s.isPaused)) = true
  · rw [if_pos hg] at hp
    dsimp only at hp
    exact absurd hp (by decide)
  · rw [if_neg hg] at hp
    simp [(ih hp).2, hp] at hg

/-- Invariant of all reachable recorder states: whenever the recorder is
paused, the pause that entered the state has appended at least one audio
segment, and the media recorder object exists. -/
theorem reachable_paused_inv (s : RecorderState) (h : Reachable s) :
    s.isPaused = true → s.audioSegments ≠ [] ∧ s.hasMediaRecorder = true := by
  induction h with
  | init => intro hp; exact absurd hp (by decide)
  | start s b _ _ =>
    intro hp
    rw [userStart_isPaused s b] at hp
    exact absurd hp (by decide)
  | pause s _ ih =>
    intro hp
    unfold pauseRecording at hp ⊢
    by_cases hg : (s.hasMediaRecorder && s.isRecording) = true
    · have hmr : s.hasMediaRecorder = true := by
        revert hg
        cases s.hasMediaRecorder <;> simp
      rw [if_pos hg] at hp ⊢
      unfold commitTranscript mediaStopAppend
      dsimp only
      constructor
      · split_ifs <;> simp
      · split_ifs <;> exact hmr
    · rw [if_neg hg] at hp ⊢
      exact ih hp
  | finish s _ ih =>
    intro hp
    unfold finishRecording at hp ⊢
    by_cases hg : (s.hasMediaRecorder && (s.isRecording || s.isPaused)) = true
    · rw [if_pos hg] at hp
      dsimp only at hp
      exact absurd hp (by decide)
    · rw [if_neg hg] at hp ⊢
      exact ih hp
  | restart s _ ih => exact pausedInv_restart s ih
  | combine s _ ih =>
    intro hp
    unfold combineAllSegments at hp ⊢
    by_cases hl : s.audioSegments.length > 0
    · rw [if_pos hl] at hp ⊢
      dsimp only at hp ⊢
      by_cases hc : finalCombinedTranscript s ≠ ""
      · rw [if_pos hc] at hp ⊢
        exact ih hp
      · rw [if_neg hc] at hp ⊢
        exact pausedInv_restart s ih hp
    · rw [if_neg hl] at hp ⊢
      exact ih hp
  | result s rs _ ih =>
    intro hp
    unfold onResult at hp ⊢
    by_cases ha : s.recognitionActive = true
    · rw [if_pos ha] at hp ⊢
      dsimp only at hp ⊢
      exact ih hp
    · rw [if_neg ha] at hp ⊢
      exact ih hp
  | dataAvail s d _ ih =>
    intro hp
    unfold onDataAvailable at hp ⊢
    by_cases hd : d.length > 0
    · rw [if_pos hd] at hp ⊢
      dsimp only at hp ⊢
      exact ih hp
    · rw [if_neg hd] at hp ⊢
      exact ih hp

/-- The state seen by the `combineAllSegments` call that `finishRecording`
schedules with `setTimeout(..., 500)`.  That closure captures the
`audioSegments` state of the render in which `finishRecording` ran: on the
recording branch the final segment is appended only later, asynchronously,
by the `onstop` handler (`setAudioSegments(prev => [...prev, blob])`), so it
is not visible to the scheduled closure.  The transcript fields are not
modified by `finishRecording`, so only the segment list differs from the
post-finish state. -/
def finalizeSnapshot (s : RecorderState) : RecorderState :=
  { finishRecording s with audioSegments := s.audioSegments }

/-- C5 counterexample: a finalization issued directly from the `Recording`
phase of a fresh session (no previously completed cycle).  The scheduled
`combineAllSegments` closure sees the segment list captured before the
final `onstop` append — the empty list — fails the `length > 0` guard, and
reports no outcome at all: neither the normal completion nor the
`EmptyAnswer` outcome, contradicting the claim that every finalization
reports exactly one of the two. -/
theorem finalize_no_outcome_cex :
    (userStart initState true).isRecording = true ∧
    (userStart initState true).hasMediaRecorder = true ∧
    (userStart initState true).audioSegments = [] ∧
    (combineAllSegments (finalizeSnapshot (userStart initState true))).2 =
      none :=
  ⟨rfl, rfl, rfl, rfl⟩

/-- C5 (amended): for every finalization whose captured segment list is
nonempty — in particular every finalization issued while `Paused` in a
reachable state, where the pause already appended its segment and the
re-render made it visible before `finish()` ran — exactly one of two
outcomes is reported: the normal completion carrying the composite artifact
and the cleaned transcript when the combined transcript is nonempty after
trimming, and the distinct `EmptyAnswer` (no-speech retry) outcome when it
is empty after trimming.  (A finalization issued directly from `Recording`
sees the list captured before the final `onstop` append; with no previously
completed cycle that list is empty and no outcome is reported — the C10
path, witnessed by the counterexample.) -/
theorem finalize_outcome_dichotomy (s : RecorderState) (hr : Reachable s)
    (hm : s.hasMediaRecorder = true)
    (ha : s.isRecording = true ∨ s.isPaused = true)
    (hcap : s.isPaused = true ∨ s.audioSegments ≠ []) :
    (finalCombinedTranscript (finalizeSnapshot s) ≠ "" ∧
      (combineAllSegments (finalizeSnapshot s)).2 =
        some (Outcome.complete (combinedBlob (finalizeSnapshot s))
          (finalCombinedTranscript (finalizeSnapshot s)))) ∨
    (finalCombinedTranscript (finalizeSnapshot s) = "" ∧
      (combineAllSegments (finalizeSnapshot s)).2 =
        some Outcome.emptyAnswer) := by
  have hseg : (finalizeSnapshot s).audioSegments ≠ [] := by
    show s.audioSegments ≠ []
    rcases hcap with hp | hne
    · exact (reachable_paused_inv s hr hp).1
    · exact hne
  have hlen : (finalizeSnapshot s).audioSegments.length > 0 :=
    List.length_pos.mpr hseg
  unfold combineAllSegments
  rw [if_pos hlen]
  dsimp only
  by_cases hc : finalCombinedTranscript (finalizeSnapshot s) ≠ ""
  · left
    exact ⟨hc, by rw [if_pos hc]⟩
  · right
    refine ⟨not_not.mp hc, ?_⟩
    rw [if_neg hc]

/-- Witness for the amended C5: finishing from the reachable paused state of
a fresh session (one paused cycle, nothing spoken), the scheduled
`combineAllSegments` sees the pause's segment and reports the `EmptyAnswer`
outcome. -/
theorem finalize_outcome_dichotomy_witness :
    Reachable (pauseRecording (userStart initState true)) ∧
    (pauseRecording (userStart initState true)).hasMediaRecorder = true ∧
    ((pauseRecording (userStart initState true)).isRecording = true ∨
      (pauseRecording (userStart initState true)).isPaused = true) ∧
    ((pauseRecording (userStart initState true)).isPaused = true ∨
      (pauseRecording (userStart initState true)).audioSegments ≠ []) ∧
    ((finalCombinedTranscript
        (finalizeSnapshot (pauseRecording (userStart initState true))) ≠ "" ∧
      (combineAllSegments
        (finalizeSnapshot (pauseRecording (userStart initState true)))).2 =
        some (Outcome.complete
          (combinedBlob
            (finalizeSnapshot (pauseRecording (userStart initState true))))
          (finalCombinedTranscript
            (finalizeSnapshot (pauseRecording (userStart initState true)))))) ∨
    (finalCombinedTranscript
        (finalizeSnapshot (pauseRecording (userStart initState true))) = "" ∧
      (combineAllSegments
        (finalizeSnapshot (pauseRecording (userStart initState true)))).2 =
        some Outcome.emptyAnswer)) :=
  ⟨Reachable.pause (userStart initState true)
      (Reachable.start initState true Reachable.init),
    by decide, Or.inr (by decide), Or.inl (by decide),
    finalize_outcome_dichotomy (pauseRecording (userStart initState true))
      (Reachable.pause (userStart initState true)
        (Reachable.start initState true Reachable.init))
      (by decide) (Or.inr (by decide)) (Or.inl (by decide))⟩

end InterviewBot
